import Mathlib

/-!
Verification development for the core kernel loop, scheduler substrate and two
representative capsules (button, USB user driver) of a small embedded OS.

The definitions below are a shallow embedding of the source files
`kernel/src/sched.rs`, `capsules/src/button.rs` and
`capsules/src/usb/usb_user.rs`.  Hardware and out-of-crate collaborators
(the scheduler timer, the platform driver registry, the syscall filter,
process memory) are modelled as oracles: arbitrary functions supplied as
parameters, so that every theorem quantifies over all of their behaviours.
Machine integers are modelled as `Nat`; `u32` operations that can wrap are
written with an explicit mask where it matters.
-/

namespace Tock

/-- Error codes of the syscall ABI (`errorcode.rs`). -/
inductive ErrorCode
  | FAIL
  | BUSY
  | ALREADY
  | OFF
  | RESERVE
  | INVAL
  | SIZE
  | CANCEL
  | NOMEM
  | NOSUPPORT
  | NODEVICE
  | UNINSTALLED
  | NOACK
deriving DecidableEq

/-- An upcall id is the pair of driver number and subscribe number
(`upcall.rs`, mirrored by the spec data model). -/
structure UpcallId where
  driver_num : Nat
  subscribe_num : Nat
deriving DecidableEq

/-- Modelled from the spec: an `Upcall` is the four-word record
`(process_id, upcall_id, user_data, function_ptr)`; the function pointer is a
`Nat` with `0` encoding the null pointer (the source type lives in
`upcall.rs`, outside the provided sources). -/
structure Upcall where
  app_id : Nat
  upcall_id : UpcallId
  appdata : Nat
  fn_ptr : Nat
deriving DecidableEq

/-- Modelled from the spec: the default (null) upcall, with no function
pointer installed. -/
def Upcall.null : Upcall := { app_id := 0, upcall_id := ⟨0, 0⟩, appdata := 0, fn_ptr := 0 }

/-- Syscall return values (`syscall.rs` / spec section 6). -/
inductive SyscallReturn
  | Success
  | SuccessU32 (v : Nat)
  | SuccessU32U32 (a b : Nat)
  | SuccessU64 (v : Nat)
  | Failure (e : ErrorCode)
  | FailureU32 (e : ErrorCode) (a : Nat)
  | FailureU32U32 (e : ErrorCode) (a b : Nat)
  | AllowReadWriteSuccess (ptr len : Nat)
  | AllowReadWriteFailure (e : ErrorCode) (ptr len : Nat)
  | AllowReadOnlySuccess (ptr len : Nat)
  | AllowReadOnlyFailure (e : ErrorCode) (ptr len : Nat)
  | SubscribeSuccess (ptr data : Nat)
  | SubscribeFailure (e : ErrorCode) (ptr data : Nat)
deriving DecidableEq

/-- Modelled from the spec: `Upcall::into_subscribe_success` returns the
upcall's function pointer and user data in a `SubscribeSuccess`. -/
def Upcall.into_subscribe_success (u : Upcall) : SyscallReturn :=
  SyscallReturn.SubscribeSuccess u.fn_ptr u.appdata

/-- Modelled from the spec: `Upcall.into_subscribe_failure` carries the error
code together with the upcall's function pointer and user data. -/
def Upcall.into_subscribe_failure (u : Upcall) (e : ErrorCode) : SyscallReturn :=
  SyscallReturn.SubscribeFailure e u.fn_ptr u.appdata

/-- Result values a driver `command` implementation can produce
(`driver.rs` `CommandReturn`). -/
inductive CommandReturn
  | success
  | successU32 (v : Nat)
  | successU32U32 (a b : Nat)
  | successU64 (v : Nat)
  | failure (e : ErrorCode)
  | failureU32 (e : ErrorCode) (a : Nat)
  | failureU32U32 (e : ErrorCode) (a b : Nat)
deriving DecidableEq

/-- Modelled from the spec: `SyscallReturn::from_command_return` maps each
`CommandReturn` variant to the syscall return variant of the same shape. -/
def SyscallReturn.from_command_return : CommandReturn → SyscallReturn
  | .success => .Success
  | .successU32 v => .SuccessU32 v
  | .successU32U32 a b => .SuccessU32U32 a b
  | .successU64 v => .SuccessU64 v
  | .failure e => .Failure e
  | .failureU32 e a => .FailureU32 e a
  | .failureU32U32 e a b => .FailureU32U32 e a b

/-! ## Kernel state and the grant registry (`sched.rs`, `Kernel` struct) -/

/-- The mutable cells of the `Kernel` struct that the operations below touch
(the static process array is not part of the mutable state). -/
structure Kernel where
  work : Nat
  process_identifier_max : Nat
  grant_counter : Nat
  grants_finalized : Bool
deriving DecidableEq

/-- A `Kernel` as produced by `Kernel::new`. -/
def Kernel.new : Kernel :=
  { work := 0, process_identifier_max := 0, grant_counter := 0, grants_finalized := false }

/-- A grant handle; only its index is relevant here (`grant.rs`). -/
structure Grant where
  grant_index : Nat
deriving DecidableEq

/-- `Kernel::create_grant`: panics (`none`) if grants are finalized, otherwise
returns a grant carrying the current counter and increments the counter. -/
def create_grant (k : Kernel) : Option (Grant × Kernel) :=
  if k.grants_finalized then
    none
  else
    some ({ grant_index := k.grant_counter }, { k with grant_counter := k.grant_counter + 1 })

/-- `Kernel::get_grant_count_and_finalize`: sets the finalized flag and
returns the number of grants created so far. -/
def get_grant_count_and_finalize (k : Kernel) : Nat × Kernel :=
  (k.grant_counter, { k with grants_finalized := true })

/-- The operations in `sched.rs` that mutate the `Kernel` cells. -/
inductive KernelOp
  | CreateGrant
  | Finalize
  | IncrementWork
  | DecrementWork
  | CreateProcessIdentifier
deriving DecidableEq

/-- One kernel-state operation; `none` models the `create_grant` panic. -/
def kernel_step (op : KernelOp) (k : Kernel) : Option Kernel :=
  match op with
  | .CreateGrant => (create_grant k).map (fun r => r.2)
  | .Finalize => some (get_grant_count_and_finalize k).2
  | .IncrementWork => some { k with work := k.work + 1 }
  | .DecrementWork => some { k with work := k.work - 1 }
  | .CreateProcessIdentifier =>
      some { k with process_identifier_max := k.process_identifier_max + 1 }

/-! ## The kernel main loop (`kernel_loop_operation`) -/

/-- Scheduler decisions (`SchedulingDecision`). -/
inductive SchedDecision
  | RunProcess (appid : Nat) (timeslice_us : Option Nat)
  | TrySleep
deriving DecidableEq

/-- Observable chip and watchdog actions of one kernel-loop iteration. -/
inductive KEvent
  | watchdogTickle
  | kernelWork
  | processRun
  | watchdogSuspend
  | chipSleep
  | watchdogResume
deriving DecidableEq

/-- One iteration of `Kernel::kernel_loop_operation`, as the list of chip and
watchdog actions it performs.  `do_kernel_work_now` is the scheduler's answer,
`decision` the result of `scheduler.next()`, and the two `at_check` flags are
the pending-interrupt and pending-deferred-call status as read inside the
chip-provided atomic section (they may differ from the state observed when
the scheduler decided to sleep, which is exactly the race the re-check
closes).  The process path runs `do_process`, modelled separately; here it is
the single event `processRun`. -/
def kernel_loop_operation (do_kernel_work_now : Bool) (decision : SchedDecision)
    (no_sleep : Bool) (pending_interrupts_at_check : Bool)
    (deferred_calls_at_check : Bool) : List KEvent :=
  KEvent.watchdogTickle ::
    (if do_kernel_work_now then
      [KEvent.kernelWork]
    else
      match decision with
      | .RunProcess _ _ => [KEvent.processRun]
      | .TrySleep =>
        if no_sleep then
          []
        else
          if !pending_interrupts_at_check && !deferred_calls_at_check then
            [KEvent.watchdogSuspend, KEvent.chipSleep, KEvent.watchdogResume]
          else
            [])

/-! ## Processes, syscalls, and the syscall dispatcher (`handle_syscall`) -/

/-- Process states (`process.rs` `State`, as described in the spec data
model). -/
inductive ProcState
  | Unstarted
  | Running
  | Yielded
  | StoppedRunning
  | StoppedYielded
  | Faulted
  | Terminated
deriving DecidableEq

/-- A queued function call: the entry point and arguments installed for the
process, plus its source (`none` for the kernel, `some uid` for an upcall
queued for subscription `uid`).  Modelled from the spec upcall-queue data
model; the source type lives in `process.rs`. -/
structure FunctionCall where
  source : Option UpcallId
  pc : Nat
  argument0 : Nat
  argument1 : Nat
  argument2 : Nat
  argument3 : Nat
deriving DecidableEq

/-- A task queued on a process (`process.rs` `Task`): a function call (which
includes queued upcalls) or an IPC notification. -/
inductive Task
  | FunctionCall (f : FunctionCall)
  | IPC (otherapp : Nat) (ipc_type : Nat)
deriving DecidableEq

/-- Whether a task is a queued upcall for the given upcall id. -/
def Task.matchesUpcall : Task → UpcallId → Bool
  | .FunctionCall fc, uid =>
    match fc.source with
    | some u => u.driver_num == uid.driver_num && u.subscribe_num == uid.subscribe_num
    | none => false
  | .IPC _ _, _ => false

/-- The portion of a process the dispatcher and the process-execution routine
manipulate.  `syscallReturn` is the last value passed to
`set_syscall_return_value` (`none` when none was ever set); `byteWrites` is
the log of `set_byte` calls (address, value); `pendingFunction` is the last
function call installed by `set_process_function`. -/
structure Process where
  pid : Nat
  state : ProcState
  tasks : List Task
  syscallReturn : Option SyscallReturn
  byteWrites : List (Nat × Nat)
  pendingFunction : Option FunctionCall
deriving DecidableEq

/-- `Process::set_syscall_return_value`. -/
def Process.set_syscall_return_value (p : Process) (r : SyscallReturn) : Process :=
  { p with syscallReturn := some r }

/-- Modelled from the spec: `Process::set_byte` writes one byte into process
memory if the address is valid; here every attempted write is logged. -/
def Process.set_byte (p : Process) (addr v : Nat) : Process :=
  { p with byteWrites := p.byteWrites ++ [(addr, v)] }

/-- Modelled from the spec: `Process::set_yielded_state` sets the process
state to Yielded. -/
def Process.set_yielded_state (p : Process) : Process :=
  { p with state := ProcState.Yielded }

/-- Modelled from the spec: `Process::terminate` moves the process to
Terminated and drops its queued tasks. -/
def Process.terminate (p : Process) (_completion_code : Nat) : Process :=
  { p with state := ProcState.Terminated, tasks := [] }

/-- Modelled from the spec: `Process::try_restart` restarts the process; the
restart policy is external, modelled as a fresh Unstarted process with an
empty queue. -/
def Process.try_restart (p : Process) (_completion_code : Nat) : Process :=
  { p with state := ProcState.Unstarted, tasks := [] }

/-- `Process::has_tasks`. -/
def Process.has_tasks (p : Process) : Bool :=
  !p.tasks.isEmpty

/-- `Process::remove_pending_upcalls`: drop every queued task that is an
upcall for the given id. -/
def Process.remove_pending_upcalls (p : Process) (uid : UpcallId) : Process :=
  { p with tasks := p.tasks.filter (fun t => !(t.matchesUpcall uid)) }

/-- Decoded syscalls (`syscall.rs` `Syscall`). -/
inductive Syscall
  | Yield (which : Nat) (address : Nat)
  | Subscribe (driver_number subdriver_number : Nat) (upcall_ptr : Nat) (appdata : Nat)
  | Command (driver_number subdriver_number arg0 arg1 : Nat)
  | ReadWriteAllow (driver_number subdriver_number : Nat) (allow_address allow_size : Nat)
  | ReadOnlyAllow (driver_number subdriver_number : Nat) (allow_address allow_size : Nat)
  | Memop (operand arg0 : Nat)
  | Exit (which : Nat) (completion_code : Nat)
deriving DecidableEq

/-- Result of a driver `subscribe`: `Ok` carries the previously installed
upcall, `Err` carries the rejected new upcall and an error code
(`driver.rs`). -/
inductive SubscribeResult
  | ok (old : Upcall)
  | err (new : Upcall) (e : ErrorCode)
deriving DecidableEq

/-- Result of a driver allow operation: `Ok` carries the previously held
slice, `Err` the rejected new slice and an error code.  Slices are modelled
as (pointer, length) pairs. -/
inductive AllowResult
  | ok (old : Nat × Nat)
  | err (new : Nat × Nat) (e : ErrorCode)
deriving DecidableEq

/-- A driver module (`driver.rs` `Driver` trait), as an oracle: each
operation is an arbitrary function of the arguments the dispatcher passes
(including the caller's process id). -/
structure Driver where
  subscribe : Nat → Upcall → Nat → SubscribeResult
  command : Nat → Nat → Nat → Nat → CommandReturn
  allow_readwrite : Nat → Nat → Nat × Nat → AllowResult
  allow_readonly : Nat → Nat → Nat × Nat → AllowResult

/-- The external collaborators of `handle_syscall`, as oracles: the
platform's optional syscall filter (`some e` means the filter rejects with
`e`), the memop module, the platform driver registry (`with_driver`), and
the process's appslice constructors (`build_readwrite_appslice` /
`build_readonly_appslice`, which validate the user-supplied address and
size). -/
structure SyscallEnv where
  filter : Syscall → Option ErrorCode
  memop : Nat → Nat → SyscallReturn
  drivers : Nat → Option Driver
  buildRW : Nat → Nat → Except ErrorCode (Nat × Nat)
  buildRO : Nat → Nat → Except ErrorCode (Nat × Nat)

/-- Yield, Exit and Memop are exempt from the platform syscall filter
(the first `match` in `handle_syscall`). -/
def Syscall.is_filterable : Syscall → Bool
  | .Yield _ _ => false
  | .Exit _ _ => false
  | .Memop _ _ => false
  | _ => true

/-- The upcall the Subscribe arm builds from the user-supplied pointer:
the null upcall when the pointer is null, otherwise a fresh upcall for the
calling process. -/
def buildUpcall (pid : Nat) (uid : UpcallId) (appdata upcall_ptr : Nat) : Upcall :=
  if upcall_ptr = 0 then Upcall.null
  else { app_id := pid, upcall_id := uid, appdata := appdata, fn_ptr := upcall_ptr }

/-- The per-class arms of `handle_syscall` (the `match syscall` after the
filter pass). -/
def dispatch_syscall (env : SyscallEnv) (p : Process) (sc : Syscall) : Process :=
  match sc with
  | .Memop operand arg0 =>
    p.set_syscall_return_value (env.memop operand arg0)
  | .Yield which address =>
    if which > 1 then
      -- Only 0 and 1 are valid; return without setting a return value.
      p
    else
      let wait : Bool := which == 1
      let return_now : Bool := !wait && !p.has_tasks
      if return_now then
        p.set_byte address 0
      else
        (p.set_byte address 1).set_yielded_state
  | .Subscribe driver_number subdriver_number upcall_ptr appdata =>
    let upcall_id : UpcallId := ⟨driver_number, subdriver_number⟩
    let p := p.remove_pending_upcalls upcall_id
    let upcall := buildUpcall p.pid upcall_id appdata upcall_ptr
    let rval :=
      match env.drivers driver_number with
      | some d =>
        match d.subscribe subdriver_number upcall p.pid with
        | .ok oldcb => oldcb.into_subscribe_success
        | .err newcb err => newcb.into_subscribe_failure err
      | none => upcall.into_subscribe_failure ErrorCode.NODEVICE
    p.set_syscall_return_value rval
  | .Command driver_number subdriver_number arg0 arg1 =>
    let cres :=
      match env.drivers driver_number with
      | some d => d.command subdriver_number arg0 arg1 p.pid
      | none => CommandReturn.failure ErrorCode.NODEVICE
    p.set_syscall_return_value (SyscallReturn.from_command_return cres)
  | .ReadWriteAllow driver_number subdriver_number allow_address allow_size =>
    let res :=
      match env.drivers driver_number with
      | some d =>
        match env.buildRW allow_address allow_size with
        | .ok appslice =>
          match d.allow_readwrite p.pid subdriver_number appslice with
          | .ok returned => SyscallReturn.AllowReadWriteSuccess returned.1 returned.2
          | .err rejected e => SyscallReturn.AllowReadWriteFailure e rejected.1 rejected.2
        | .error allow_error =>
          SyscallReturn.AllowReadWriteFailure allow_error allow_address allow_size
      | none => SyscallReturn.AllowReadWriteFailure ErrorCode.NODEVICE allow_address allow_size
    p.set_syscall_return_value res
  | .ReadOnlyAllow driver_number subdriver_number allow_address allow_size =>
    let res :=
      match env.drivers driver_number with
      | some d =>
        match env.buildRO allow_address allow_size with
        | .ok appslice =>
          match d.allow_readonly p.pid subdriver_number appslice with
          | .ok returned => SyscallReturn.AllowReadOnlySuccess returned.1 returned.2
          | .err rejected e => SyscallReturn.AllowReadOnlyFailure e rejected.1 rejected.2
        | .error allow_error =>
          SyscallReturn.AllowReadOnlyFailure allow_error allow_address allow_size
      | none => SyscallReturn.AllowReadOnlyFailure ErrorCode.NODEVICE allow_address allow_size
    p.set_syscall_return_value res
  | .Exit which completion_code =>
    match which with
    | 0 => p.terminate completion_code
    | 1 => p.try_restart completion_code
    | _ => p.set_syscall_return_value (SyscallReturn.Failure ErrorCode.NOSUPPORT)

/-- `Kernel::handle_syscall`: apply the platform filter to filterable
syscalls, then dispatch. -/
def handle_syscall (env : SyscallEnv) (p : Process) (sc : Syscall) : Process :=
  if sc.is_filterable then
    match env.filter sc with
    | some response => p.set_syscall_return_value (SyscallReturn.Failure response)
    | none => dispatch_syscall env p sc
  else
    dispatch_syscall env p sc

/-! ## The process-execution routine (`do_process`) -/

/-- Threshold in microseconds to consider a process's timeslice exhausted
(`MIN_QUANTA_THRESHOLD_US` in `sched.rs`). -/
def MIN_QUANTA_THRESHOLD_US : Nat := 500

/-- Modelled from the spec: the dummy scheduler timer used for cooperative
scheduling never fires and always reports "infinite" remaining microseconds
(the largest `u32`). -/
def nullTimerRemaining : Option Nat := some 4294967295

/-- Why the process returned to the kernel (`syscall.rs`
`ContextSwitchReason`); `switch_to` returning `None` models a failed
switch. -/
inductive ContextSwitchReason
  | Fault
  | SyscallFired (sc : Syscall)
  | Interrupted
deriving DecidableEq

/-- Why `do_process` returned (`StoppedExecutingReason`). -/
inductive StoppedExecutingReason
  | NoWorkLeft
  | StoppedFaulted
  | Stopped
  | TimesliceExpired
  | KernelPreemption
deriving DecidableEq

/-- State threaded through `do_process`: the process, counters of how many
times each oracle has been consulted (so that each call can yield a
different answer), the number of hardware context switches performed, and
the log of IPC upcalls scheduled. -/
structure DPState where
  proc : Process
  timerCalls : Nat
  contCalls : Nat
  readyCalls : Nat
  switchCalls : Nat
  faultHookCalls : Nat
  ipcScheduled : List (Nat × Nat)
deriving DecidableEq

/-- The external collaborators of `do_process`, as oracles: successive
readings of the chip scheduler timer's `get_remaining_us` (indexed by call
number), the scheduler's `continue_process` answers, the process's `ready`
answers, the `switch_to` results, the platform fault-hook results, the
syscall dispatcher's own environment, and whether an IPC module was
supplied. -/
structure DPEnv where
  readings : Nat → Option Nat
  contProc : Nat → Bool
  readyAt : Nat → Bool
  switchReason : Nat → Option ContextSwitchReason
  faultHookOk : Nat → Bool
  sysEnv : SyscallEnv
  hasIpc : Bool

/-- One `get_remaining_us` call: the dummy timer (cooperative run) reports
its constant; the chip timer consumes the next oracle reading. -/
def timerRead (env : DPEnv) (timeslice_us : Option Nat) (s : DPState) :
    Option Nat × DPState :=
  match timeslice_us with
  | none => (nullTimerRemaining, s)
  | some _ => (env.readings s.timerCalls, { s with timerCalls := s.timerCalls + 1 })

/-- How the inner loop of `do_process` ended: a `break` with the recorded
reason, a kernel panic (scheduling a Faulted/Terminated process, or an IPC
task with no IPC module), or fuel exhaustion (the loop ran longer than the
fuel allows; no execution of the source loop is modelled by it). -/
inductive LoopExit
  | brk (reason : StoppedExecutingReason) (s : DPState)
  | panicked (s : DPState)
  | fuelOut (s : DPState)
deriving DecidableEq

/-- The inner loop of `do_process`.  Each iteration reads the scheduler
timer, consults `continue_process` and `ready`, and branches on the process
state exactly as the source loop does.  The `brk` reasons mirror the
assignments to `return_reason` immediately before each `break`; the
dequeue-`None` break leaves the initial `NoWorkLeft` in place. -/
def dpLoop (env : DPEnv) (timeslice_us : Option Nat) : Nat → DPState → LoopExit
  | 0, s => .fuelOut s
  | fuel + 1, s =>
    let (r, s) := timerRead env timeslice_us s
    let stop_running : Bool :=
      match r with
      | some us => us ≤ MIN_QUANTA_THRESHOLD_US
      | none => true
    if stop_running then
      -- Process ran out of time while the kernel was executing.
      .brk .TimesliceExpired s
    else
      let continue_process := env.contProc s.contCalls
      let s := { s with contCalls := s.contCalls + 1 }
      if !continue_process then
        .brk .KernelPreemption s
      else
        let ready := env.readyAt s.readyCalls
        let s := { s with readyCalls := s.readyCalls + 1 }
        if !ready then
          .brk .NoWorkLeft s
        else
          match s.proc.state with
          | .Running =>
            -- setup_mpu, enable_app_mpu, arm, switch_to, disarm, disable_app_mpu
            let context_switch_reason := env.switchReason s.switchCalls
            let s := { s with switchCalls := s.switchCalls + 1 }
            match context_switch_reason with
            | some .Fault =>
              let hook_ok := env.faultHookOk s.faultHookCalls
              let s := { s with faultHookCalls := s.faultHookCalls + 1 }
              let s :=
                if hook_ok then s
                else { s with proc := { s.proc with state := ProcState.Faulted } }
              dpLoop env timeslice_us fuel s
            | some (.SyscallFired sc) =>
              dpLoop env timeslice_us fuel
                { s with proc := handle_syscall env.sysEnv s.proc sc }
            | some .Interrupted =>
              let (r2, s) := timerRead env timeslice_us s
              if r2 = none then
                -- This interrupt was a timeslice expiration.
                .brk .TimesliceExpired s
              else
                dpLoop env timeslice_us fuel s
            | none =>
              dpLoop env timeslice_us fuel
                { s with proc := { s.proc with state := ProcState.Faulted } }
          | .Yielded | .Unstarted =>
            match s.proc.tasks with
            | [] => .brk .NoWorkLeft s
            | cb :: rest =>
              let s := { s with proc := { s.proc with tasks := rest } }
              match cb with
              | .FunctionCall ccb =>
                dpLoop env timeslice_us fuel
                  { s with proc := { s.proc with pendingFunction := some ccb } }
              | .IPC otherapp ipc_type =>
                if env.hasIpc then
                  dpLoop env timeslice_us fuel
                    { s with ipcScheduled := s.ipcScheduled ++ [(otherapp, ipc_type)] }
                else
                  -- Kernel consistency error: IPC Task with no IPC
                  .panicked s
          | .Faulted | .Terminated =>
            -- Attempted to schedule a faulty process
            .panicked s
          | .StoppedRunning => .brk .Stopped s
          | .StoppedYielded => .brk .Stopped s

/-- The post-loop computation of `time_executed_us`: `None` for a
cooperative run; the whole timeslice when the reason is `TimesliceExpired`
(the remaining-query may not be called again after reporting expired);
otherwise timeslice minus the remaining reading, or the whole timeslice if
the timer reports expired. -/
def dpFinish (env : DPEnv) (timeslice_us : Option Nat)
    (reason : StoppedExecutingReason) (s : DPState) : Option Nat × DPState :=
  match timeslice_us with
  | none => (none, s)
  | some timeslice =>
    if reason = .TimesliceExpired then
      (some timeslice, s)
    else
      let (r, s) := timerRead env timeslice_us s
      match r with
      | some remaining => (some (timeslice - remaining), s)
      | none => (some timeslice, s)

/-- Outcome of `do_process`: the stop reason reported to the scheduler, the
execution time, and the final state; or a kernel panic; or fuel
exhaustion. -/
inductive DPResult
  | done (reason : StoppedExecutingReason) (time : Option Nat) (final : DPState)
  | panicked (s : DPState)
  | fuelOut (s : DPState)
deriving DecidableEq

/-- `Kernel::do_process`: reset and start the (possibly dummy) scheduler
timer, run the inner loop, then compute the execution time. -/
def do_process (env : DPEnv) (timeslice_us : Option Nat) (fuel : Nat)
    (s0 : DPState) : DPResult :=
  match dpLoop env timeslice_us fuel s0 with
  | .brk reason s =>
    let (time, s) := dpFinish env timeslice_us reason s
    .done reason time s
  | .panicked s => .panicked s
  | .fuelOut s => .fuelOut s

/-! ## Grant helpers shared by the capsule models -/

/-- Modelled from the spec: the error code produced when a grant `enter`
fails because the process is gone (`err.into()` on the grant error). -/
def grant_enter_error : ErrorCode := ErrorCode.FAIL

/-- Look up the grant entry of a process id (first occurrence). -/
def grantLookup {α : Type} : List (Nat × α) → Nat → Option α
  | [], _ => none
  | (q, a) :: rest, pid => if q = pid then some a else grantLookup rest pid

/-- Update the grant entry of a process id in place (first occurrence). -/
def grantUpdate {α : Type} (f : α → α) : List (Nat × α) → Nat → List (Nat × α)
  | [], _ => []
  | (q, a) :: rest, pid =>
    if q = pid then (q, f a) :: rest else (q, a) :: grantUpdate f rest pid

/-! ## The button capsule (`capsules/src/button.rs`) -/

/-- One button pin: whether either-edge interrupts are enabled, and the
current activation state read by command 3. -/
structure ButtonPin where
  interruptEnabled : Bool
  activationState : Bool
deriving DecidableEq

/-- The per-process grant entry of the button capsule: the subscribed upcall
and the `SubscribeMap` bit array (a `u32` of per-button interest bits). -/
structure ButtonEntry where
  upcall : Upcall
  mask : Nat
deriving DecidableEq

/-- The button capsule state: the static pin array and the per-process grant
entries in grant-iteration order. -/
structure ButtonState where
  pins : List ButtonPin
  apps : List (Nat × ButtonEntry)
deriving DecidableEq

/-- The largest `u32`; `!x` on a `u32` is `UINT32_MAX ^^^ x`. -/
def UINT32_MAX : Nat := 4294967295

/-- `Button::command`.  Command 0 returns the button count; command 1 sets
bit `data` in the caller's mask and enables either-edge interrupts on that
pin; command 2 clears the bit and then disables the pin's interrupt iff the
`each` sweep finds no process with the bit still set; command 3 reads the
pin's activation state.  Out-of-range indices fail with `INVAL`. -/
def button_command (st : ButtonState) (command_num data appid : Nat) :
    CommandReturn × ButtonState :=
  match command_num with
  | 0 => (CommandReturn.successU32 st.pins.length, st)
  | 1 =>
    if data < st.pins.length then
      match grantLookup st.apps appid with
      | some _ =>
        let apps := grantUpdate
          (fun cntr : ButtonEntry => { cntr with mask := Nat.lor cntr.mask (Nat.shiftLeft 1 data) })
          st.apps appid
        let pins := st.pins.set data
          { (st.pins.getD data ⟨false, false⟩) with interruptEnabled := true }
        (CommandReturn.success, { st with apps := apps, pins := pins })
      | none => (CommandReturn.failure grant_enter_error, st)
    else
      (CommandReturn.failure ErrorCode.INVAL, st)
  | 2 =>
    if st.pins.length ≤ data then
      (CommandReturn.failure ErrorCode.INVAL, st)
    else
      let (res, st) :=
        match grantLookup st.apps appid with
        | some _ =>
          let apps := grantUpdate
            (fun cntr : ButtonEntry =>
              { cntr with
                mask := Nat.land cntr.mask (Nat.xor UINT32_MAX (Nat.shiftLeft 1 data)) })
            st.apps appid
          (CommandReturn.success, { st with apps := apps })
        | none => (CommandReturn.failure grant_enter_error, st)
      -- are any processes waiting for this button?
      let interrupt_count :=
        (st.apps.filter
          (fun a => !(Nat.land a.2.mask (Nat.shiftLeft 1 data) == 0))).length
      -- if not, disable the interrupt
      let st :=
        if interrupt_count = 0 then
          { st with
            pins := st.pins.set data
              { (st.pins.getD data ⟨false, false⟩) with interruptEnabled := false } }
        else st
      (res, st)
  | 3 =>
    if st.pins.length ≤ data then
      (CommandReturn.failure ErrorCode.INVAL, st)
    else
      let button_state := (st.pins.getD data ⟨false, false⟩).activationState
      (CommandReturn.successU32 (if button_state then 1 else 0), st)
  | _ => (CommandReturn.failure ErrorCode.NOSUPPORT, st)

/-! ## The USB user capsule (`capsules/src/usb/usb_user.rs`) -/

/-- The single request kind a process can queue against the USB driver. -/
inductive Request
  | EnableAndAttach
deriving DecidableEq

/-- The per-process grant entry of the USB driver. -/
structure UsbApp where
  callback : Upcall
  awaiting : Option Request
deriving DecidableEq

/-- The USB driver state: the grant entries in grant-iteration order and the
`serving_app` optional cell. -/
structure UsbState where
  apps : List (Nat × UsbApp)
  serving_app : Option Nat
deriving DecidableEq

/-- `UsbSyscallDriver::new`: the `serving_app` cell starts empty. -/
def UsbSyscallDriver_new (apps : List (Nat × UsbApp)) : UsbState :=
  { apps := apps, serving_app := none }

/-- Observable actions of the USB driver on the controller and on processes. -/
inductive UsbEvent
  | enable
  | attach
  | scheduleCallback (cb : Upcall)
deriving DecidableEq

/-- The scan inside `serve_waiting_apps`: walk the grant entries in order,
serve the first one with a pending request (enable and attach synchronously,
schedule its callback, clear its `awaiting`), and stop there. -/
def serveApps : List (Nat × UsbApp) → List (Nat × UsbApp) × List UsbEvent
  | [] => ([], [])
  | (pid, app) :: rest =>
    match app.awaiting with
    | some Request.EnableAndAttach =>
      ((pid, { app with awaiting := none }) :: rest,
       [UsbEvent.enable, UsbEvent.attach, UsbEvent.scheduleCallback app.callback])
    | none =>
      let (served, evs) := serveApps rest
      ((pid, app) :: served, evs)

/-- `UsbSyscallDriver::serve_waiting_apps`: a no-op while `serving_app` is
set, otherwise the scan above. -/
def serve_waiting_apps (st : UsbState) : UsbState × List UsbEvent :=
  if st.serving_app.isSome then
    (st, [])
  else
    let (apps, evs) := serveApps st.apps
    ({ st with apps := apps }, evs)

/-- `UsbSyscallDriver::command`.  Command 0 reports presence; command 1
records an `EnableAndAttach` request unless one is already pending (`BUSY`)
and then calls `serve_waiting_apps`. -/
def usb_command (st : UsbState) (command_num appid : Nat) :
    CommandReturn × UsbState × List UsbEvent :=
  match command_num with
  | 0 => (CommandReturn.success, st, [])
  | 1 =>
    match grantLookup st.apps appid with
    | none => (CommandReturn.failure grant_enter_error, st, [])
    | some app =>
      if app.awaiting.isSome then
        -- Each app may make only one request at a time
        (CommandReturn.failure ErrorCode.BUSY, st, [])
      else
        let st1 :=
          { st with
            apps := grantUpdate
              (fun a : UsbApp => { a with awaiting := some Request.EnableAndAttach })
              st.apps appid }
        let (st2, evs) := serve_waiting_apps st1
        (CommandReturn.success, st2, evs)
  | _ => (CommandReturn.failure ErrorCode.NOSUPPORT, st, [])

/-- `UsbSyscallDriver::subscribe`: subscribe 0 swaps the stored callback and
returns the previous one; other numbers fail with `NOSUPPORT`. -/
def usb_subscribe (st : UsbState) (subscribe_num : Nat) (callback : Upcall)
    (app_id : Nat) : SubscribeResult × UsbState :=
  match subscribe_num with
  | 0 =>
    match grantLookup st.apps app_id with
    | some app =>
      (SubscribeResult.ok app.callback,
       { st with apps := grantUpdate (fun a : UsbApp => { a with callback := callback }) st.apps app_id })
    | none => (SubscribeResult.err callback grant_enter_error, st)
  | _ => (SubscribeResult.err callback ErrorCode.NOSUPPORT, st)

/-- Every grant entry has no pending request. -/
def allAwaitingNone (apps : List (Nat × UsbApp)) : Prop :=
  ∀ e ∈ apps, e.2.awaiting = none

/-! ## Theorems for the claims -/

/-- C6: the `grants_finalized` flag only transitions from false to true
(`get_grant_count_and_finalize` sets it and no kernel operation clears it);
`create_grant` after finalization panics; `create_grant` before finalization
returns a grant carrying the current `grant_counter` and increments the
counter by one. -/
theorem c6_grant_lifecycle :
    (∀ (op : KernelOp) (k k2 : Kernel), kernel_step op k = some k2 →
      (k.grants_finalized = true → k2.grants_finalized = true) ∧
      (k2.grants_finalized = true → k.grants_finalized = true ∨ op = KernelOp.Finalize)) ∧
    (∀ k : Kernel, ((get_grant_count_and_finalize k).2).grants_finalized = true) ∧
    (∀ k : Kernel, k.grants_finalized = true → create_grant k = none) ∧
    (∀ k : Kernel, k.grants_finalized = false →
      create_grant k =
        some ({ grant_index := k.grant_counter },
              { k with grant_counter := k.grant_counter + 1 })) := by
  refine ⟨?_, ?_, ?_, ?_⟩
  · intro op k k2 h
    obtain ⟨w, pm, gc, gf⟩ := k
    cases gf <;> cases op <;>
      simp_all [kernel_step, create_grant, get_grant_count_and_finalize] <;>
      subst h <;> simp
  · intro k
    simp [get_grant_count_and_finalize]
  · intro k h
    simp [create_grant, h]
  · intro k h
    simp [create_grant, h]

/-- C6 witness: a concrete run through the lifecycle. -/
theorem c6_grant_lifecycle_witness :
    ((Kernel.new.grants_finalized = true →
        ({ Kernel.new with work := 1 } : Kernel).grants_finalized = true) ∧
      (({ Kernel.new with work := 1 } : Kernel).grants_finalized = true →
        Kernel.new.grants_finalized = true ∨ KernelOp.IncrementWork = KernelOp.Finalize)) ∧
    create_grant { Kernel.new with grants_finalized := true } = none ∧
    create_grant Kernel.new =
      some ({ grant_index := 0 }, { Kernel.new with grant_counter := 1 }) :=
  ⟨c6_grant_lifecycle.1 KernelOp.IncrementWork Kernel.new
      { Kernel.new with work := 1 } (by decide),
   c6_grant_lifecycle.2.2.1 { Kernel.new with grants_finalized := true } (by decide),
   c6_grant_lifecycle.2.2.2 Kernel.new (by decide)⟩

/-- C7: in the kernel loop's sleep path, `chip.sleep` happens exactly when
the scheduler chose `TrySleep`, `no_sleep` is clear, and the re-check inside
the atomic section finds neither pending interrupts nor pending deferred
calls; with `no_sleep` set, sleep never happens; and when sleep happens the
iteration is exactly tickle, suspend watchdog, sleep, resume watchdog. -/
theorem c7_sleep_path :
    (∀ (dk : Bool) (dec : SchedDecision) (ns pi dc : Bool),
      KEvent.chipSleep ∈ kernel_loop_operation dk dec ns pi dc ↔
        (dk = false ∧ dec = SchedDecision.TrySleep ∧ ns = false ∧
          pi = false ∧ dc = false)) ∧
    (∀ (dk : Bool) (dec : SchedDecision) (ns pi dc : Bool), ns = true →
      KEvent.chipSleep ∉ kernel_loop_operation dk dec ns pi dc) ∧
    (∀ (dk : Bool) (dec : SchedDecision) (ns pi dc : Bool),
      dk = false → dec = SchedDecision.TrySleep → ns = false → pi = false →
      dc = false →
      kernel_loop_operation dk dec ns pi dc =
        [KEvent.watchdogTickle, KEvent.watchdogSuspend, KEvent.chipSleep,
         KEvent.watchdogResume]) := by
  refine ⟨?_, ?_, ?_⟩
  · intro dk dec ns pi dc
    cases dk <;> cases dec <;> cases ns <;> cases pi <;> cases dc <;>
      simp [kernel_loop_operation]
  · intro dk dec ns pi dc hns
    subst hns
    cases dk <;> cases dec <;> simp [kernel_loop_operation]
  · intro dk dec ns pi dc h1 h2 h3 h4 h5
    subst h1; subst h2; subst h3; subst h4; subst h5
    simp [kernel_loop_operation]

/-- C7 witness: the sleep iteration at concrete inputs. -/
theorem c7_sleep_path_witness :
    KEvent.chipSleep ∉ kernel_loop_operation false SchedDecision.TrySleep true false false ∧
    kernel_loop_operation false SchedDecision.TrySleep false false false =
      [KEvent.watchdogTickle, KEvent.watchdogSuspend, KEvent.chipSleep,
       KEvent.watchdogResume] :=
  ⟨c7_sleep_path.2.1 false SchedDecision.TrySleep true false false rfl,
   c7_sleep_path.2.2 false SchedDecision.TrySleep false false false rfl rfl rfl rfl rfl⟩

/-- A concrete oracle environment used by witnesses and counterexamples: no
filter, no drivers, trivial memop and appslice builders. -/
def oracleEnv0 : SyscallEnv :=
  { filter := fun _ => none
    memop := fun _ _ => SyscallReturn.Success
    drivers := fun _ => none
    buildRW := fun _ _ => Except.error ErrorCode.INVAL
    buildRO := fun _ _ => Except.error ErrorCode.INVAL }

/-- A concrete running process with an empty task queue and no syscall
return value set. -/
def proc0 : Process :=
  { pid := 0, state := ProcState.Running, tasks := [], syscallReturn := none,
    byteWrites := [], pendingFunction := none }

/-- C3 counterexample: a Yield (no-wait) syscall on a process with no
pending tasks is fully processed by the dispatcher, the process continues
running, and no syscall return value was ever set — so user code does
resume from a syscall without the dispatcher having set a return value. -/
theorem c3_counterexample :
    (handle_syscall oracleEnv0 proc0 (Syscall.Yield 0 77)).syscallReturn = none ∧
    (handle_syscall oracleEnv0 proc0 (Syscall.Yield 0 77)).state = ProcState.Running := by
  exact ⟨rfl, rfl⟩

/-- C3 amended: for every syscall other than Yield and the Exit variants 0
(terminate) and 1 (try-restart), the dispatcher sets a syscall return value
before the process resumes; Yield deliberately communicates through the
user-supplied flag byte instead of a return value, and Exit 0/1 do not
resume the process. -/
theorem c3_return_value_set (env : SyscallEnv) (p : Process) (sc : Syscall)
    (hy : ∀ w a, sc ≠ Syscall.Yield w a)
    (he0 : ∀ c, sc ≠ Syscall.Exit 0 c)
    (he1 : ∀ c, sc ≠ Syscall.Exit 1 c) :
    ((handle_syscall env p sc).syscallReturn).isSome = true := by
  cases sc with
  | Yield w a => exact absurd rfl (hy w a)
  | Exit w c =>
    rcases w with _ | w
    · exact absurd rfl (he0 c)
    rcases w with _ | w
    · exact absurd rfl (he1 c)
    · simp [handle_syscall, Syscall.is_filterable, dispatch_syscall,
        Process.set_syscall_return_value]
  | Memop operand arg0 =>
    simp [handle_syscall, Syscall.is_filterable, dispatch_syscall,
      Process.set_syscall_return_value]
  | Subscribe dn sn ptr d =>
    cases hf : env.filter (Syscall.Subscribe dn sn ptr d) <;>
      simp [handle_syscall, Syscall.is_filterable, hf, dispatch_syscall,
        Process.set_syscall_return_value]
  | Command dn sn a0 a1 =>
    cases hf : env.filter (Syscall.Command dn sn a0 a1) <;>
      simp [handle_syscall, Syscall.is_filterable, hf, dispatch_syscall,
        Process.set_syscall_return_value]
  | ReadWriteAllow dn sn aa as =>
    cases hf : env.filter (Syscall.ReadWriteAllow dn sn aa as) <;>
      simp [handle_syscall, Syscall.is_filterable, hf, dispatch_syscall,
        Process.set_syscall_return_value]
  | ReadOnlyAllow dn sn aa as =>
    cases hf : env.filter (Syscall.ReadOnlyAllow dn sn aa as) <;>
      simp [handle_syscall, Syscall.is_filterable, hf, dispatch_syscall,
        Process.set_syscall_return_value]

/-- C3 witness: a Command syscall gets a return value. -/
theorem c3_return_value_set_witness :
    ((handle_syscall oracleEnv0 proc0 (Syscall.Command 1 2 3 4)).syscallReturn).isSome = true :=
  c3_return_value_set oracleEnv0 proc0 (Syscall.Command 1 2 3 4)
    (fun _ _ h => Syscall.noConfusion h)
    (fun _ h => Syscall.noConfusion h)
    (fun _ h => Syscall.noConfusion h)

/-- C4: for every Yield syscall, a sub-selector greater than 1 returns
without setting a return value or touching the process; sub-selector 0
(no-wait) with no pending tasks writes byte 0 to the user-supplied flag
address and leaves the state unchanged; every other valid case writes byte 1
and sets the state to Yielded. -/
theorem c4_yield (env : SyscallEnv) (p : Process) (w a : Nat) :
    (w > 1 → handle_syscall env p (Syscall.Yield w a) = p) ∧
    (w = 0 → p.tasks = [] →
      handle_syscall env p (Syscall.Yield w a) = p.set_byte a 0) ∧
    (w ≤ 1 → (w = 1 ∨ p.tasks ≠ []) →
      handle_syscall env p (Syscall.Yield w a) = (p.set_byte a 1).set_yielded_state) := by
  refine ⟨?_, ?_, ?_⟩
  · intro hw
    simp [handle_syscall, Syscall.is_filterable, dispatch_syscall, hw]
  · intro hw ht
    subst hw
    simp [handle_syscall, Syscall.is_filterable, dispatch_syscall,
      Process.has_tasks, ht]
  · intro hw hcase
    rcases hcase with h1 | hne
    · subst h1
      simp [handle_syscall, Syscall.is_filterable, dispatch_syscall]
    · rcases w with _ | w
      · simp [handle_syscall, Syscall.is_filterable, dispatch_syscall,
          Process.has_tasks, List.isEmpty_iff, hne]
      · rcases w with _ | w
        · simp [handle_syscall, Syscall.is_filterable, dispatch_syscall]
        · omega

/-- C4 witness: the three cases at concrete inputs. -/
theorem c4_yield_witness :
    handle_syscall oracleEnv0 proc0 (Syscall.Yield 2 77) = proc0 ∧
    handle_syscall oracleEnv0 proc0 (Syscall.Yield 0 77) = proc0.set_byte 77 0 ∧
    handle_syscall oracleEnv0 proc0 (Syscall.Yield 1 77) =
      (proc0.set_byte 77 1).set_yielded_state :=
  ⟨(c4_yield oracleEnv0 proc0 2 77).1 (by decide),
   (c4_yield oracleEnv0 proc0 0 77).2.1 rfl rfl,
   (c4_yield oracleEnv0 proc0 1 77).2.2 (by decide) (Or.inl rfl)⟩

/-- C5: for every Subscribe syscall that passes the filter, the queued
upcalls for `(driver_number, subdriver_number)` are removed no matter what
the driver registry holds (hence also on a driver miss); a driver miss
returns `SubscribeFailure NODEVICE` carrying the newly built upcall; a
driver `Ok old` returns `SubscribeSuccess` with the previously installed
upcall's pointer and user data; a driver `Err` returns `SubscribeFailure`
with the error code and the upcall the driver handed back (the new upcall,
by the driver contract). -/
theorem c5_subscribe (env : SyscallEnv) (p : Process) (dn sn ptr d : Nat)
    (hfil : env.filter (Syscall.Subscribe dn sn ptr d) = none) :
    ((handle_syscall env p (Syscall.Subscribe dn sn ptr d)).tasks
        = p.tasks.filter (fun t => !(t.matchesUpcall ⟨dn, sn⟩))) ∧
    (env.drivers dn = none →
      (handle_syscall env p (Syscall.Subscribe dn sn ptr d)).syscallReturn
        = some ((buildUpcall p.pid ⟨dn, sn⟩ d ptr).into_subscribe_failure
            ErrorCode.NODEVICE)) ∧
    (∀ drv old, env.drivers dn = some drv →
      drv.subscribe sn (buildUpcall p.pid ⟨dn, sn⟩ d ptr) p.pid = SubscribeResult.ok old →
      (handle_syscall env p (Syscall.Subscribe dn sn ptr d)).syscallReturn
        = some (SyscallReturn.SubscribeSuccess old.fn_ptr old.appdata)) ∧
    (∀ drv u e, env.drivers dn = some drv →
      drv.subscribe sn (buildUpcall p.pid ⟨dn, sn⟩ d ptr) p.pid = SubscribeResult.err u e →
      (handle_syscall env p (Syscall.Subscribe dn sn ptr d)).syscallReturn
        = some (SyscallReturn.SubscribeFailure e u.fn_ptr u.appdata)) := by
  refine ⟨?_, ?_, ?_, ?_⟩
  · simp only [handle_syscall, Syscall.is_filterable, hfil]
    cases hd : env.drivers dn
    · simp [dispatch_syscall, hd, Process.set_syscall_return_value,
        Process.remove_pending_upcalls]
    · simp [dispatch_syscall, hd, Process.set_syscall_return_value,
        Process.remove_pending_upcalls]
  · intro hd
    simp [handle_syscall, Syscall.is_filterable, hfil, dispatch_syscall, hd,
      Process.set_syscall_return_value, Process.remove_pending_upcalls,
      Upcall.into_subscribe_failure]
  · intro drv old hd hs
    simp [handle_syscall, Syscall.is_filterable, hfil, dispatch_syscall, hd,
      Process.remove_pending_upcalls, hs,
      Process.set_syscall_return_value, Upcall.into_subscribe_success]
  · intro drv u e hd hs
    simp [handle_syscall, Syscall.is_filterable, hfil, dispatch_syscall, hd,
      Process.remove_pending_upcalls, hs,
      Process.set_syscall_return_value, Upcall.into_subscribe_failure]

/-- A concrete driver oracle whose subscribe always accepts and returns the
upcall it was handed. -/
def drv0 : Driver :=
  { subscribe := fun _ u _ => SubscribeResult.ok u
    command := fun _ _ _ _ => CommandReturn.success
    allow_readwrite := fun _ _ s => AllowResult.ok s
    allow_readonly := fun _ _ s => AllowResult.ok s }

/-- The oracle environment with `drv0` registered as driver number 7. -/
def envDrv : SyscallEnv :=
  { oracleEnv0 with drivers := fun n => if n = 7 then some drv0 else none }

/-- C5 witness: a concrete Subscribe against driver 7. -/
theorem c5_subscribe_witness :
    (handle_syscall envDrv proc0 (Syscall.Subscribe 7 0 1000 55)).tasks
        = proc0.tasks.filter (fun t => !(t.matchesUpcall ⟨7, 0⟩)) ∧
    (handle_syscall envDrv proc0 (Syscall.Subscribe 7 0 1000 55)).syscallReturn
        = some (SyscallReturn.SubscribeSuccess 1000 55) :=
  ⟨(c5_subscribe envDrv proc0 7 0 1000 55 rfl).1,
   (c5_subscribe envDrv proc0 7 0 1000 55 rfl).2.2.1 drv0
     (buildUpcall proc0.pid ⟨7, 0⟩ 55 1000) rfl rfl⟩

/-- C1: for every completed run of `do_process` with timeslice `some t`, a
stop reason of `TimesliceExpired` reports execution time exactly `t`; any
other stop reason reports `t` minus the scheduler timer's remaining
microseconds at that point, or the whole `t` if the timer then reports
expired; with timeslice `none` (cooperative) the reported time is `none`. -/
theorem c1_execution_time (env : DPEnv) (ts : Option Nat) (fuel : Nat)
    (s0 : DPState) (reason : StoppedExecutingReason) (s1 : DPState)
    (h : dpLoop env ts fuel s0 = LoopExit.brk reason s1) :
    (ts = none → do_process env ts fuel s0 = DPResult.done reason none s1) ∧
    (∀ t, ts = some t → reason = StoppedExecutingReason.TimesliceExpired →
      do_process env ts fuel s0 = DPResult.done reason (some t) s1) ∧
    (∀ t, ts = some t → reason ≠ StoppedExecutingReason.TimesliceExpired →
      do_process env ts fuel s0 =
        DPResult.done reason
          (some (match env.readings s1.timerCalls with
                 | some remaining => t - remaining
                 | none => t))
          { s1 with timerCalls := s1.timerCalls + 1 }) := by
  refine ⟨?_, ?_, ?_⟩
  · intro hts
    subst hts
    simp [do_process, h, dpFinish]
  · intro t hts hr
    subst hts
    subst hr
    simp [do_process, h, dpFinish]
  · intro t hts hr
    subst hts
    cases hread : env.readings s1.timerCalls <;>
      simp [do_process, h, dpFinish, hr, timerRead, hread]

/-- An oracle environment for `do_process` in which the scheduler timer
first reads 400 remaining microseconds. -/
def dpEnv0 : DPEnv :=
  { readings := fun _ => some 400
    contProc := fun _ => true
    readyAt := fun _ => true
    switchReason := fun _ => some ContextSwitchReason.Interrupted
    faultHookOk := fun _ => true
    sysEnv := oracleEnv0
    hasIpc := false }

/-- The initial `do_process` state over `proc0`. -/
def dpState0 : DPState :=
  { proc := proc0, timerCalls := 0, contCalls := 0, readyCalls := 0,
    switchCalls := 0, faultHookCalls := 0, ipcScheduled := [] }

/-- C1 witness: a run that expires immediately reports the whole
timeslice. -/
theorem c1_execution_time_witness :
    do_process dpEnv0 (some 10000) 5 dpState0 =
      DPResult.done StoppedExecutingReason.TimesliceExpired (some 10000)
        { dpState0 with timerCalls := 1 } :=
  (c1_execution_time dpEnv0 (some 10000) 5 dpState0
      StoppedExecutingReason.TimesliceExpired { dpState0 with timerCalls := 1 }
      (by decide)).2.1 10000 rfl rfl

/-- C2: at the top of every inner-loop iteration of `do_process` with a real
timeslice, a timer reading of expired or at most `MIN_QUANTA_THRESHOLD_US`
stops the loop with `TimesliceExpired`; and a requested timeslice of exactly
`MIN_QUANTA_THRESHOLD_US` (whose countdown timer can report at most that
much remaining) makes `do_process` return `TimesliceExpired` with the whole
timeslice charged and without a single context switch into the process. -/
theorem c2_min_quanta :
    (∀ (env : DPEnv) (t fuel : Nat) (s : DPState),
      (match env.readings s.timerCalls with
       | some us => us ≤ MIN_QUANTA_THRESHOLD_US
       | none => True) →
      dpLoop env (some t) (fuel + 1) s =
        LoopExit.brk StoppedExecutingReason.TimesliceExpired
          { s with timerCalls := s.timerCalls + 1 }) ∧
    (∀ (env : DPEnv) (fuel : Nat) (s : DPState),
      s.timerCalls = 0 → s.switchCalls = 0 →
      (∀ r, env.readings 0 = some r → r ≤ MIN_QUANTA_THRESHOLD_US) →
      do_process env (some MIN_QUANTA_THRESHOLD_US) (fuel + 1) s =
        DPResult.done StoppedExecutingReason.TimesliceExpired
          (some MIN_QUANTA_THRESHOLD_US) { s with timerCalls := 1 } ∧
      ({ s with timerCalls := 1 } : DPState).switchCalls = 0) := by
  constructor
  · intro env t fuel s hle
    cases hr : env.readings s.timerCalls with
    | none => simp [dpLoop, timerRead, hr]
    | some us =>
      rw [hr] at hle
      have hle2 : us ≤ MIN_QUANTA_THRESHOLD_US := hle
      simp [dpLoop, timerRead, hr, hle2]
  · intro env fuel s h0 hsw hle
    have hbrk :
        dpLoop env (some MIN_QUANTA_THRESHOLD_US) (fuel + 1) s =
          LoopExit.brk StoppedExecutingReason.TimesliceExpired
            { s with timerCalls := s.timerCalls + 1 } := by
      cases hr : env.readings s.timerCalls with
      | none => simp [dpLoop, timerRead, hr]
      | some us =>
        have hle2 : us ≤ MIN_QUANTA_THRESHOLD_US := hle us (h0 ▸ hr)
        simp [dpLoop, timerRead, hr, hle2]
    refine ⟨?_, ?_⟩
    · rw [do_process, hbrk]
      simp [dpFinish, h0]
    · simp [hsw]

/-- C2 witness: a 500 microsecond request with a fresh countdown timer is
skipped outright. -/
theorem c2_min_quanta_witness :
    dpLoop dpEnv0 (some 10000) 4 dpState0 =
      LoopExit.brk StoppedExecutingReason.TimesliceExpired
        { dpState0 with timerCalls := 1 } ∧
    do_process dpEnv0 (some MIN_QUANTA_THRESHOLD_US) 3 dpState0 =
      DPResult.done StoppedExecutingReason.TimesliceExpired
        (some MIN_QUANTA_THRESHOLD_US) { dpState0 with timerCalls := 1 } :=
  ⟨c2_min_quanta.1 dpEnv0 10000 3 dpState0
      (by show (400 : Nat) ≤ MIN_QUANTA_THRESHOLD_US; decide),
   (c2_min_quanta.2 dpEnv0 2 dpState0 rfl rfl
      (fun r hr => by simp [dpEnv0] at hr; subst hr; decide)).1⟩

/-- Updating and then looking up the same process id applies the update to
the stored entry. -/
theorem grantLookup_grantUpdate {α : Type} (f : α → α) (l : List (Nat × α)) (pid : Nat) :
    grantLookup (grantUpdate f l pid) pid = (grantLookup l pid).map f := by
  induction l with
  | nil => simp [grantLookup, grantUpdate]
  | cons e rest ih =>
    obtain ⟨q, a⟩ := e
    by_cases h : q = pid <;> simp [grantLookup, grantUpdate, h, ih]

/-- Setting a bit with `lor` and clearing it with `land` of the inverted
`u32` mask leaves that bit clear (for bit positions inside the `u32`). -/
theorem masked_bit_cleared (m i : Nat) (h32 : i < 32) :
    (Nat.land (Nat.lor m (Nat.shiftLeft 1 i))
        (Nat.xor UINT32_MAX (Nat.shiftLeft 1 i))).testBit i = false := by
  have hsh : Nat.shiftLeft 1 i = 2 ^ i := by simp [Nat.shiftLeft_eq]
  show ((m ||| Nat.shiftLeft 1 i) &&& (UINT32_MAX ^^^ Nat.shiftLeft 1 i)).testBit i = false
  rw [hsh, Nat.testBit_land, Nat.testBit_xor,
    show UINT32_MAX = 2 ^ 32 - 1 by norm_num [UINT32_MAX],
    Nat.testBit_two_pow_sub_one, Nat.testBit_two_pow_self]
  simp [h32]

/-- C8 corrected: for every process with a grant entry and every valid
button index `i` (within the `u32` subscribe map), button command 1 followed
by command 2 on index `i` leaves bit `i` of the process's mask cleared — so
the bit equals its initial value exactly when it was initially clear, not in
general. -/
theorem c8_button_pair (st : ButtonState) (i appid : Nat) (e : ButtonEntry)
    (hi : i < st.pins.length) (h32 : i < 32)
    (happ : grantLookup st.apps appid = some e) :
    ∃ e2,
      grantLookup ((button_command (button_command st 1 i appid).2 2 i appid).2).apps appid
        = some e2 ∧
      e2.mask.testBit i = false ∧
      (e2.mask.testBit i = e.mask.testBit i ↔ e.mask.testBit i = false) := by
  have h1 : (button_command st 1 i appid).2 =
      { st with
        apps := grantUpdate
          (fun cntr : ButtonEntry =>
            { cntr with mask := Nat.lor cntr.mask (Nat.shiftLeft 1 i) })
          st.apps appid,
        pins := st.pins.set i
          { (st.pins.getD i ⟨false, false⟩) with interruptEnabled := true } } := by
    simp [button_command, hi, happ]
  set st1 := (button_command st 1 i appid).2 with hst1
  have hlen : st1.pins.length = st.pins.length := by
    rw [h1]; simp
  have hlook1 : grantLookup st1.apps appid =
      some { e with mask := Nat.lor e.mask (Nat.shiftLeft 1 i) } := by
    rw [h1]; simp [grantLookup_grantUpdate, happ]
  have h2 : ((button_command st1 2 i appid).2).apps =
      grantUpdate
        (fun cntr : ButtonEntry =>
          { cntr with
            mask := Nat.land cntr.mask (Nat.xor UINT32_MAX (Nat.shiftLeft 1 i)) })
        st1.apps appid := by
    have hle : ¬ (st1.pins.length ≤ i) := by omega
    simp only [button_command, if_neg hle, hlook1]
    split <;> simp
  refine ⟨{ upcall := e.upcall,
            mask := Nat.land (Nat.lor e.mask (Nat.shiftLeft 1 i))
                      (Nat.xor UINT32_MAX (Nat.shiftLeft 1 i)) }, ?_, ?_, ?_⟩
  · rw [h2, grantLookup_grantUpdate, hlook1]
    rfl
  · exact masked_bit_cleared e.mask i h32
  · show (Nat.land (Nat.lor e.mask (Nat.shiftLeft 1 i))
        (Nat.xor UINT32_MAX (Nat.shiftLeft 1 i))).testBit i = e.mask.testBit i ↔
      e.mask.testBit i = false
    rw [masked_bit_cleared e.mask i h32]
    cases hb : e.mask.testBit i <;> simp

/-- A concrete button state: two pins, one app whose mask has bit 1 set. -/
def c8_state0 : ButtonState :=
  { pins := [{ interruptEnabled := false, activationState := false },
             { interruptEnabled := false, activationState := false }],
    apps := [(0, { upcall := Upcall.null, mask := 2 })] }

/-- C8 counterexample: with bit 1 initially set, button command 1 then
command 2 on index 1 leaves the bit cleared, not equal to its initial
value. -/
theorem c8_counterexample :
    ((grantLookup ((button_command (button_command c8_state0 1 1 0).2 2 1 0).2).apps 0).map
        (fun e => e.mask.testBit 1))
      = some false ∧
    ((grantLookup c8_state0.apps 0).map (fun e => e.mask.testBit 1)) = some true := by
  refine ⟨?_, ?_⟩ <;> decide

/-- C8 witness: the corrected statement at a concrete state. -/
theorem c8_button_pair_witness :
    ∃ e2,
      grantLookup ((button_command (button_command c8_state0 1 1 0).2 2 1 0).2).apps 0
        = some e2 ∧
      e2.mask.testBit 1 = false ∧
      (e2.mask.testBit 1 = (({ upcall := Upcall.null, mask := 2 } : ButtonEntry)).mask.testBit 1 ↔
        (({ upcall := Upcall.null, mask := 2 } : ButtonEntry)).mask.testBit 1 = false) :=
  c8_button_pair c8_state0 1 0 { upcall := Upcall.null, mask := 2 }
    (by decide) (by decide) (by decide)

/-- The serve scan leaves a request-free grant list untouched and performs
no action. -/
theorem serveApps_of_allNone (apps : List (Nat × UsbApp))
    (h : ∀ e ∈ apps, e.2.awaiting = none) : serveApps apps = (apps, []) := by
  induction apps with
  | nil => simp [serveApps]
  | cons e rest ih =>
    obtain ⟨pid, app⟩ := e
    have h0 : app.awaiting = none := h (pid, app) (by simp)
    have hrest := ih (fun x hx => h x (by simp [hx]))
    simp [serveApps, h0, hrest]

/-- The serve scan serves exactly the first entry with a pending request:
it enables and attaches, schedules that entry's callback, clears its
`awaiting`, and leaves all other entries unchanged. -/
theorem serveApps_first (l1 : List (Nat × UsbApp)) (pid : Nat) (app : UsbApp)
    (l2 : List (Nat × UsbApp)) (h1 : ∀ e ∈ l1, e.2.awaiting = none)
    (happ : app.awaiting = some Request.EnableAndAttach) :
    serveApps (l1 ++ (pid, app) :: l2) =
      (l1 ++ (pid, { app with awaiting := none }) :: l2,
       [UsbEvent.enable, UsbEvent.attach, UsbEvent.scheduleCallback app.callback]) := by
  induction l1 with
  | nil => simp [serveApps, happ]
  | cons e rest ih =>
    obtain ⟨q, a⟩ := e
    have h0 : a.awaiting = none := h1 (q, a) (by simp)
    have hrest := ih (fun x hx => h1 x (by simp [hx]))
    simp [serveApps, h0, hrest]

/-- After recording a request for some process in a request-free grant list,
the serve scan leaves every entry request-free again. -/
theorem serveApps_after_request (apps : List (Nat × UsbApp)) (pid : Nat)
    (hall : ∀ e ∈ apps, e.2.awaiting = none) :
    ∀ e ∈ (serveApps (grantUpdate
        (fun a : UsbApp => { a with awaiting := some Request.EnableAndAttach })
        apps pid)).1,
      e.2.awaiting = none := by
  induction apps with
  | nil =>
    intro x hx
    simp [grantUpdate, serveApps] at hx
  | cons e rest ih =>
    obtain ⟨q, a⟩ := e
    have hallrest : ∀ x ∈ rest, x.2.awaiting = none :=
      fun x hx => hall x (List.mem_cons_of_mem _ hx)
    by_cases hq : q = pid
    · have hstep : serveApps (grantUpdate
          (fun a : UsbApp => { a with awaiting := some Request.EnableAndAttach })
          ((q, a) :: rest) pid) =
          ((q, { a with awaiting := none }) :: rest,
           [UsbEvent.enable, UsbEvent.attach, UsbEvent.scheduleCallback a.callback]) := by
        rw [grantUpdate, if_pos hq]
        rfl
      rw [hstep]
      intro x hx
      rcases List.mem_cons.mp hx with hx | hx
      · rw [hx]
      · exact hallrest x hx
    · have h0 : a.awaiting = none := hall (q, a) (List.mem_cons_self _ _)
      have hstep : serveApps (grantUpdate
          (fun a : UsbApp => { a with awaiting := some Request.EnableAndAttach })
          ((q, a) :: rest) pid) =
          ((q, a) :: (serveApps (grantUpdate
              (fun a : UsbApp => { a with awaiting := some Request.EnableAndAttach })
              rest pid)).1,
           (serveApps (grantUpdate
              (fun a : UsbApp => { a with awaiting := some Request.EnableAndAttach })
              rest pid)).2) := by
        rw [grantUpdate, if_neg hq]
        rw [serveApps, h0]
      rw [hstep]
      intro x hx
      rcases List.mem_cons.mp hx with hx | hx
      · rw [hx]; exact h0
      · exact ih hallrest x hx

/-- Looking up an entry of a request-free grant list yields a request-free
entry. -/
theorem grantLookup_awaiting_none (apps : List (Nat × UsbApp)) (pid : Nat)
    (app : UsbApp) (hall : ∀ e ∈ apps, e.2.awaiting = none)
    (h : grantLookup apps pid = some app) : app.awaiting = none := by
  induction apps with
  | nil => simp [grantLookup] at h
  | cons e rest ih =>
    obtain ⟨q, a⟩ := e
    by_cases hq : q = pid
    · simp only [grantLookup, if_pos hq, Option.some.injEq] at h
      exact h ▸ hall (q, a) (by simp)
    · simp only [grantLookup, if_neg hq] at h
      exact ih (fun x hx => hall x (by simp [hx])) h

/-- Swapping a callback does not touch the `awaiting` fields. -/
theorem grantUpdate_callback_awaiting (apps : List (Nat × UsbApp)) (pid : Nat)
    (cb : Upcall) (hall : ∀ e ∈ apps, e.2.awaiting = none) :
    ∀ e ∈ grantUpdate (fun a : UsbApp => { a with callback := cb }) apps pid,
      e.2.awaiting = none := by
  induction apps with
  | nil =>
    intro x hx
    simp [grantUpdate] at hx
  | cons e rest ih =>
    obtain ⟨q, a⟩ := e
    have h0 : a.awaiting = none := hall (q, a) (List.mem_cons_self _ _)
    have hallrest : ∀ x ∈ rest, x.2.awaiting = none :=
      fun x hx => hall x (List.mem_cons_of_mem _ hx)
    by_cases hq : q = pid
    · rw [grantUpdate, if_pos hq]
      intro x hx
      rcases List.mem_cons.mp hx with hx | hx
      · rw [hx]; exact h0
      · exact hallrest x hx
    · rw [grantUpdate, if_neg hq]
      intro x hx
      rcases List.mem_cons.mp hx with hx | hx
      · rw [hx]; exact h0
      · exact ih hallrest x hx

/-- `serve_waiting_apps` never writes the `serving_app` cell. -/
theorem serve_waiting_apps_serving (st : UsbState) :
    ((serve_waiting_apps st).1).serving_app = st.serving_app := by
  rw [serve_waiting_apps]
  split <;> simp

/-- C9: for a process whose USB grant entry has a pending request, command 1
fails with `BUSY` and changes nothing; with no pending request, command 1
records an `EnableAndAttach` request, invokes `serve_waiting_apps` on the
resulting state, and returns success. -/
theorem c9_usb_command (st : UsbState) (pid : Nat) (app : UsbApp)
    (happ : grantLookup st.apps pid = some app) :
    (app.awaiting.isSome = true →
      usb_command st 1 pid = (CommandReturn.failure ErrorCode.BUSY, st, [])) ∧
    (app.awaiting = none →
      usb_command st 1 pid =
        (CommandReturn.success,
         (serve_waiting_apps
            { st with
              apps := grantUpdate
                  (fun a : UsbApp => { a with awaiting := some Request.EnableAndAttach })
                  st.apps pid }).1,
         (serve_waiting_apps
            { st with
              apps := grantUpdate
                  (fun a : UsbApp => { a with awaiting := some Request.EnableAndAttach })
                  st.apps pid }).2)) := by
  constructor
  · intro h
    simp [usb_command, happ, h]
  · intro h
    simp [usb_command, happ, h]

/-- A USB state with one request-free app. -/
def usb0 : UsbState :=
  UsbSyscallDriver_new [(0, { callback := Upcall.null, awaiting := none })]

/-- A USB state with one app whose request is pending. -/
def usb1 : UsbState :=
  { apps := [(0, { callback := Upcall.null, awaiting := some Request.EnableAndAttach })],
    serving_app := none }

/-- C9 witness: both command-1 cases at concrete states. -/
theorem c9_usb_command_witness :
    usb_command usb1 1 0 = (CommandReturn.failure ErrorCode.BUSY, usb1, []) ∧
    usb_command usb0 1 0 =
      (CommandReturn.success,
       (serve_waiting_apps
          { usb0 with
            apps := grantUpdate
                (fun a : UsbApp => { a with awaiting := some Request.EnableAndAttach })
                usb0.apps 0 }).1,
       (serve_waiting_apps
          { usb0 with
            apps := grantUpdate
                (fun a : UsbApp => { a with awaiting := some Request.EnableAndAttach })
                usb0.apps 0 }).2) :=
  ⟨(c9_usb_command usb1 0
      { callback := Upcall.null, awaiting := some Request.EnableAndAttach } rfl).1 rfl,
   (c9_usb_command usb0 0 { callback := Upcall.null, awaiting := none } rfl).2 rfl⟩

/-- C10 (implicit): the `serving_app` cell starts empty and no operation
ever sets it, so the guard in `serve_waiting_apps` never blocks; the serve
scan is a no-op on a request-free state and otherwise serves exactly the
first app with a pending request (synchronously enabling and attaching,
scheduling that app's callback, and clearing its `awaiting`); consequently a
request-free state stays request-free across every command and subscribe,
and command 1 can never return `BUSY` from such a state. -/
theorem c10_usb_serving_invariant :
    (∀ apps, (UsbSyscallDriver_new apps).serving_app = none) ∧
    (∀ st c pid, ((usb_command st c pid).2.1).serving_app = st.serving_app) ∧
    (∀ st sn cb pid, ((usb_subscribe st sn cb pid).2).serving_app = st.serving_app) ∧
    (∀ st, ((serve_waiting_apps st).1).serving_app = st.serving_app) ∧
    (∀ st, st.serving_app = none → allAwaitingNone st.apps →
      serve_waiting_apps st = (st, [])) ∧
    (∀ st l1 pid app l2, st.serving_app = none →
      st.apps = l1 ++ (pid, app) :: l2 →
      (∀ e ∈ l1, (e : Nat × UsbApp).2.awaiting = none) →
      app.awaiting = some Request.EnableAndAttach →
      serve_waiting_apps st =
        ({ st with apps := l1 ++ (pid, { app with awaiting := none }) :: l2 },
         [UsbEvent.enable, UsbEvent.attach, UsbEvent.scheduleCallback app.callback])) ∧
    (∀ st c pid, st.serving_app = none → allAwaitingNone st.apps →
      allAwaitingNone (((usb_command st c pid).2.1).apps)) ∧
    (∀ st sn cb pid, allAwaitingNone st.apps →
      allAwaitingNone (((usb_subscribe st sn cb pid).2).apps)) ∧
    (∀ st pid, allAwaitingNone st.apps →
      (usb_command st 1 pid).1 ≠ CommandReturn.failure ErrorCode.BUSY) := by
  have hserve : ∀ st : UsbState, ((serve_waiting_apps st).1).serving_app = st.serving_app :=
    serve_waiting_apps_serving
  refine ⟨fun apps => rfl, ?_, ?_, hserve, ?_, ?_, ?_, ?_, ?_⟩
  · intro st c pid
    rcases c with _ | c
    · rfl
    rcases c with _ | c
    · cases happ : grantLookup st.apps pid with
      | none => simp [usb_command, happ]
      | some app =>
        cases haw : app.awaiting with
        | none => simp [usb_command, happ, haw, hserve]
        | some r => simp [usb_command, happ, haw]
    · rfl
  · intro st sn cb pid
    rcases sn with _ | sn
    · cases happ : grantLookup st.apps pid with
      | none => simp [usb_subscribe, happ]
      | some app => simp [usb_subscribe, happ]
    · rfl
  · intro st hs hall
    obtain ⟨apps, sa⟩ := st
    cases sa with
    | none => simp [serve_waiting_apps, serveApps_of_allNone apps hall]
    | some q => simp at hs
  · intro st l1 pid app l2 hs hdecomp h1 happ
    rw [serve_waiting_apps]
    simp [hs, hdecomp, serveApps_first l1 pid app l2 h1 happ]
  · intro st c pid hs hall
    rcases c with _ | c
    · exact hall
    rcases c with _ | c
    · cases happ : grantLookup st.apps pid with
      | none => simpa [usb_command, happ] using hall
      | some app =>
        have haw : app.awaiting = none := grantLookup_awaiting_none st.apps pid app hall happ
        have hscan := serveApps_after_request st.apps pid hall
        simp only [usb_command, happ, haw, Option.isSome_none, Bool.false_eq_true, if_neg]
        rw [serve_waiting_apps]
        simp [hs]
        intro x hx
        exact hscan x hx
    · exact hall
  · intro st sn cb pid hall
    rcases sn with _ | sn
    · cases happ : grantLookup st.apps pid with
      | none => simpa [usb_subscribe, happ] using hall
      | some app =>
        simp only [usb_subscribe, happ]
        exact fun e he => grantUpdate_callback_awaiting st.apps pid cb hall e he
    · exact hall
  · intro st pid hall
    cases happ : grantLookup st.apps pid with
    | none => simp [usb_command, happ, grant_enter_error]
    | some app =>
      have haw : app.awaiting = none := grantLookup_awaiting_none st.apps pid app hall happ
      simp [usb_command, happ, haw]

/-- C10 witness: the invariant at concrete states. -/
theorem c10_usb_serving_invariant_witness :
    serve_waiting_apps usb0 = (usb0, []) ∧
    allAwaitingNone (((usb_command usb0 1 0).2.1).apps) ∧
    (usb_command usb0 1 0).1 ≠ CommandReturn.failure ErrorCode.BUSY :=
  ⟨c10_usb_serving_invariant.2.2.2.2.1 usb0 rfl
      (by unfold allAwaitingNone; decide),
   c10_usb_serving_invariant.2.2.2.2.2.2.1 usb0 1 0 rfl
      (by unfold allAwaitingNone; decide),
   c10_usb_serving_invariant.2.2.2.2.2.2.2.2 usb0 0
      (by unfold allAwaitingNone; decide)⟩

end Tock
